import Mathlib

/-!
Verification development for the portfolio contact-form backend:
the in-memory fixed-window rate limiter (lib/server/rate-limit.ts),
the client identifier extractor (lib/server/get-client-ip.ts),
the Zod contact schema (lib/contact/schema.ts), the Brevo email
sending chain (services/brevo.service.ts, lib/email/brevo.ts) and the
POST /api/contact route handler.

Conventions of the shallow embedding:
  - JavaScript numbers holding timestamps and counters are modelled as
    Nat (all values involved are non-negative integers far below 2^53,
    so JS arithmetic on them is exact).
  - The mutable `Map<string, RateLimitRecord>` is modelled as a function
    `String → Option RateLimitRecord`; mutation becomes explicit state
    passing.
  - `Date.now()` becomes an explicit `now : Nat` argument.
  - Functions that `throw` are modelled with `Except String`.
-/

namespace Portfolio

/-! ## Rate limiter (lib/server/rate-limit.ts) -/

/-- Source constant DEFAULT_MAX_REQUESTS = 5. -/
def DEFAULT_MAX_REQUESTS : Nat := 5

/-- Source constant DEFAULT_WINDOW_MS = 60 * 1000. -/
def DEFAULT_WINDOW_MS : Nat := 60 * 1000

/-- Source type RateLimitRecord: { count: number, resetTime: number }. -/
structure RateLimitRecord where
  count : Nat
  resetTime : Nat
deriving Repr, DecidableEq

/-- The in-memory `rateLimitMap : Map<string, RateLimitRecord>`,
modelled as a lookup function. -/
def RateLimitMap : Type := String → Option RateLimitRecord

/-- The empty map (initial state of `rateLimitMap`). -/
def RateLimitMap.empty : RateLimitMap := fun _ => none

/-- Point update of the map, as performed by `rateLimitMap.set(key, rec)`. -/
def RateLimitMap.set (m : RateLimitMap) (key : String) (rec : RateLimitRecord) :
    RateLimitMap :=
  fun k => if k = key then some rec else m k

/-- The optional `options` argument of `isRateLimited`:
{ maxRequests?: number, windowMs?: number }. -/
structure RateLimitOptions where
  maxRequests : Option Nat
  windowMs : Option Nat
deriving Repr, DecidableEq

/-- `isRateLimited(key, options)` called with `options` absent (all
fields undefined). -/
def RateLimitOptions.none : RateLimitOptions := ⟨Option.none, Option.none⟩

/-- Source function `isRateLimited(key, options)`.  `now` is the value
of `Date.now()` at the call; the map is passed and returned explicitly.
Returns the boolean result (true = limited) and the updated map.

Source logic: resolve the defaults with `??`; if there is no record for
`key`, or `now > record.resetTime`, store `{count: 1, resetTime: now +
windowMs}` and return false; otherwise increment `record.count` and
return `record.count > maxRequests`. -/
def isRateLimited (key : String) (options : RateLimitOptions) (now : Nat)
    (map : RateLimitMap) : Bool × RateLimitMap :=
  let maxRequests := options.maxRequests.getD DEFAULT_MAX_REQUESTS
  let windowMs := options.windowMs.getD DEFAULT_WINDOW_MS
  match map key with
  | Option.none => (false, map.set key ⟨1, now + windowMs⟩)
  | some record =>
      if now > record.resetTime then
        (false, map.set key ⟨1, now + windowMs⟩)
      else
        let newRecord : RateLimitRecord := ⟨record.count + 1, record.resetTime⟩
        (decide (newRecord.count > maxRequests), map.set key newRecord)

/-- Source function `cleanupRateLimitMap()`: deletes every entry whose
`resetTime` lies strictly before `now`. -/
def cleanupRateLimitMap (now : Nat) (map : RateLimitMap) : RateLimitMap :=
  fun k =>
    match map k with
    | Option.none => Option.none
    | some record => if now > record.resetTime then Option.none else some record

/-! ## Helper lemmas about the rate limiter -/

/-- Fresh-window branch of `isRateLimited`: no record, or the stored
window has elapsed. -/
theorem isRateLimited_fresh (key : String) (o : RateLimitOptions) (now : Nat)
    (s : RateLimitMap)
    (h : s key = Option.none ∨ ∃ r, s key = some r ∧ now > r.resetTime) :
    isRateLimited key o now s =
      (false, s.set key ⟨1, now + o.windowMs.getD DEFAULT_WINDOW_MS⟩) := by
  rcases h with h | ⟨r, hr, hexp⟩
  · simp [isRateLimited, h]
  · simp [isRateLimited, hr, hexp]

/-- In-window branch of `isRateLimited`: a record exists and its window
has not elapsed. -/
theorem isRateLimited_inWindow (key : String) (o : RateLimitOptions) (now : Nat)
    (s : RateLimitMap) (r : RateLimitRecord)
    (hr : s key = some r) (ht : ¬ now > r.resetTime) :
    isRateLimited key o now s =
      (decide (r.count + 1 > o.maxRequests.getD DEFAULT_MAX_REQUESTS),
       s.set key ⟨r.count + 1, r.resetTime⟩) := by
  simp [isRateLimited, hr, ht]

/-- Map component of the fresh-window branch. -/
theorem isRateLimited_fresh_snd (key : String) (o : RateLimitOptions)
    (now : Nat) (s : RateLimitMap)
    (h : s key = Option.none ∨ ∃ r, s key = some r ∧ now > r.resetTime) :
    (isRateLimited key o now s).2 =
      s.set key ⟨1, now + o.windowMs.getD DEFAULT_WINDOW_MS⟩ := by
  rw [isRateLimited_fresh key o now s h]

/-- Map component of the in-window branch. -/
theorem isRateLimited_inWindow_snd (key : String) (o : RateLimitOptions)
    (now : Nat) (s : RateLimitMap) (r : RateLimitRecord)
    (hr : s key = some r) (ht : ¬ now > r.resetTime) :
    (isRateLimited key o now s).2 = s.set key ⟨r.count + 1, r.resetTime⟩ := by
  rw [isRateLimited_inWindow key o now s r hr ht]

/-- Boolean component of the fresh-window branch. -/
theorem isRateLimited_fresh_fst (key : String) (o : RateLimitOptions)
    (now : Nat) (s : RateLimitMap)
    (h : s key = Option.none ∨ ∃ r, s key = some r ∧ now > r.resetTime) :
    (isRateLimited key o now s).1 = false := by
  rw [isRateLimited_fresh key o now s h]

/-- Boolean component of the in-window branch. -/
theorem isRateLimited_inWindow_fst (key : String) (o : RateLimitOptions)
    (now : Nat) (s : RateLimitMap) (r : RateLimitRecord)
    (hr : s key = some r) (ht : ¬ now > r.resetTime) :
    (isRateLimited key o now s).1 =
      decide (r.count + 1 > o.maxRequests.getD DEFAULT_MAX_REQUESTS) := by
  rw [isRateLimited_inWindow key o now s r hr ht]

theorem RateLimitMap.set_self (m : RateLimitMap) (key : String)
    (rec : RateLimitRecord) : m.set key rec key = some rec := by
  simp [RateLimitMap.set]

theorem RateLimitMap.set_other (m : RateLimitMap) (key k : String)
    (rec : RateLimitRecord) (h : k ≠ key) : m.set key rec k = m k := by
  simp [RateLimitMap.set, h]

/-! ## Claim theorems: rate limiter core -/

/-- C1. For every call `isRateLimited(key, options)`: if no record is
stored for `key` or the stored record's window has elapsed
(`now > resetTime`), a fresh record `{count: 1, resetTime: now + windowMs}`
is stored and the call returns false; otherwise the stored count is
incremented and the call returns true exactly when the post-increment
count exceeds `maxRequests`.  The defaults are `maxRequests = 5` and
`windowMs = 60000` ms. -/
theorem C1_isRateLimited_fixed_window (key : String) (o : RateLimitOptions)
    (now : Nat) (s : RateLimitMap) :
    ((s key = Option.none ∨ ∃ r, s key = some r ∧ now > r.resetTime) →
        (isRateLimited key o now s).1 = false ∧
        (isRateLimited key o now s).2 key =
          some ⟨1, now + o.windowMs.getD DEFAULT_WINDOW_MS⟩) ∧
    (∀ r, s key = some r → ¬ now > r.resetTime →
        (isRateLimited key o now s).2 key = some ⟨r.count + 1, r.resetTime⟩ ∧
        ((isRateLimited key o now s).1 = true ↔
          r.count + 1 > o.maxRequests.getD DEFAULT_MAX_REQUESTS)) ∧
    DEFAULT_MAX_REQUESTS = 5 ∧ DEFAULT_WINDOW_MS = 60000 ∧
    RateLimitOptions.none.maxRequests.getD DEFAULT_MAX_REQUESTS = 5 ∧
    RateLimitOptions.none.windowMs.getD DEFAULT_WINDOW_MS = 60000 := by
  refine ⟨fun h => ?_, fun r hr ht => ?_, rfl, rfl, rfl, rfl⟩
  · rw [isRateLimited_fresh key o now s h]
    exact ⟨rfl, RateLimitMap.set_self ..⟩
  · rw [isRateLimited_inWindow key o now s r hr ht]
    refine ⟨RateLimitMap.set_self .., ?_⟩
    simp

/-- Closed witness for C1: evaluates both branches on concrete inputs. -/
theorem C1_isRateLimited_fixed_window_witness :
    (isRateLimited ("1.2.3.4") RateLimitOptions.none 100 RateLimitMap.empty).1
        = false ∧
    (isRateLimited ("1.2.3.4") RateLimitOptions.none 100 RateLimitMap.empty).2
        ("1.2.3.4") = some ⟨1, 60100⟩ ∧
    (isRateLimited ("1.2.3.4") RateLimitOptions.none 200
        (RateLimitMap.empty.set ("1.2.3.4") ⟨5, 60100⟩)).1 = true := by
  have h1 := C1_isRateLimited_fixed_window ("1.2.3.4") RateLimitOptions.none 100
    RateLimitMap.empty
  have h2 := C1_isRateLimited_fixed_window ("1.2.3.4") RateLimitOptions.none 200
    (RateLimitMap.empty.set ("1.2.3.4") ⟨5, 60100⟩)
  refine ⟨(h1.1 (Or.inl rfl)).1, (h1.1 (Or.inl rfl)).2, ?_⟩
  have := (h2.2.1 ⟨5, 60100⟩ (by rfl) (by decide)).2
  exact this.mpr (by decide)

/-- C10. Implicit: for every key with no stored record, or whose stored
record's window has elapsed, `isRateLimited` returns false for every
value of `maxRequests`, including `maxRequests = 0`: the fresh-window
branch stores `count = 1` and returns not-limited without ever comparing
the count against `maxRequests`. -/
theorem C10_fresh_window_ignores_maxRequests (key : String)
    (o : RateLimitOptions) (now : Nat) (s : RateLimitMap)
    (h : s key = Option.none ∨ ∃ r, s key = some r ∧ now > r.resetTime) :
    (isRateLimited key o now s).1 = false := by
  rw [isRateLimited_fresh key o now s h]

/-- Closed witness for C10: a fresh key is not limited even with
`maxRequests = 0`, and neither is a key whose window has elapsed. -/
theorem C10_fresh_window_ignores_maxRequests_witness :
    (isRateLimited ("a") ⟨some 0, Option.none⟩ 7 RateLimitMap.empty).1 = false ∧
    (isRateLimited ("a") ⟨some 0, Option.none⟩ 50
        (RateLimitMap.empty.set ("a") ⟨9, 10⟩)).1 = false := by
  constructor
  · exact C10_fresh_window_ignores_maxRequests ("a") ⟨some 0, Option.none⟩ 7
      RateLimitMap.empty (Or.inl rfl)
  · exact C10_fresh_window_ignores_maxRequests ("a") ⟨some 0, Option.none⟩ 50
      (RateLimitMap.empty.set ("a") ⟨9, 10⟩)
      (Or.inr ⟨⟨9, 10⟩, rfl, by decide⟩)

/-! ## Client identifier extraction (lib/server/get-client-ip.ts) -/

/-- JS `str.split(',')[0]!`: the prefix of the string before its first
comma (the whole string when it has none). -/
def splitFirst (s : String) : String :=
  ⟨s.data.takeWhile (fun c => c ≠ ',')⟩

/-- JS `String.prototype.trim`: strip leading and trailing whitespace
(for the ASCII header values at issue, Char.isWhitespace coincides with
the JS whitespace class). -/
def jsTrim (s : String) : String :=
  ⟨(((s.data.dropWhile Char.isWhitespace).reverse).dropWhile
      Char.isWhitespace).reverse⟩

/-- Source function `getClientIp(request)`.  The two headers it reads
are passed explicitly; `Option.none` models an absent header.  JS
truthiness: a present-but-empty header string is falsy, so it falls
through to the next source.  `x-forwarded-for` is split on commas and
the first entry is trimmed. -/
def getClientIp (forwardedFor realIp : Option String) : String :=
  match forwardedFor with
  | some ff =>
      if ff ≠ "" then jsTrim (splitFirst ff)
      else
        match realIp with
        | some ip => if ip ≠ "" then ip else "unknown"
        | Option.none => "unknown"
  | Option.none =>
      match realIp with
      | some ip => if ip ≠ "" then ip else "unknown"
      | Option.none => "unknown"

/-! ## Contact schema (lib/contact/schema.ts) -/

/-- Source constant `projectTypes`. -/
def projectTypes : List String :=
  ["website", "webapp", "mobile", "ecommerce", "other"]

/-- Source constant `budgetRanges`. -/
def budgetRanges : List String :=
  ["less-than-5k", "5k-10k", "10k-25k", "25k-50k", "more-than-50k", "not-sure"]

/-- A Zod validation issue after the route handler's
`issue.path.join('.')` flattening: the (single-segment) field path and
the issue message. -/
structure ContactIssue where
  field : String
  message : String
deriving Repr, DecidableEq

/-- A parsed JSON body that has the object shape of the contact form:
each declared field present with the declared primitive type (optional
fields may be absent).  The claims under verification only concern such
bodies; bodies of a different shape fail Zod type checks and also take
the VALIDATION_ERROR path. -/
structure RawSubmission where
  name : String
  email : String
  subject : String
  message : String
  projectType : Option String
  budget : Option String
  honeypot : Option String
deriving Repr, DecidableEq

/-- Issues of `name: z.string().min(2, …).max(100, …)`.  String lengths
are code-point counts; for the ASCII inputs of the claims this agrees
with the JS `length` that Zod counts. -/
def nameIssues (name : String) : List ContactIssue :=
  (if name.length < 2 then
      [⟨"name", "Le nom doit contenir au moins 2 caractères"⟩] else []) ++
  (if name.length > 100 then
      [⟨"name", "Le nom ne peut pas dépasser 100 caractères"⟩] else [])

/-- Issues of `email: z.email(…).max(255, …)`.  The email-syntax test
itself lives in the Zod library, not in this repository, so it is kept
abstract as the parameter `emailValid`. -/
def emailIssues (emailValid : String → Bool) (email : String) :
    List ContactIssue :=
  (if emailValid email then []
      else [⟨"email", "Veuillez entrer une adresse email valide"⟩]) ++
  (if email.length > 255 then
      [⟨"email", "L\x27email ne peut pas dépasser 255 caractères"⟩] else [])

/-- Issues of `subject: z.string().min(3, …).max(200, …)`. -/
def subjectIssues (subject : String) : List ContactIssue :=
  (if subject.length < 3 then
      [⟨"subject", "Le sujet doit contenir au moins 3 caractères"⟩] else []) ++
  (if subject.length > 200 then
      [⟨"subject", "Le sujet ne peut pas dépasser 200 caractères"⟩] else [])

/-- Issues of `message: z.string().min(20, …).max(5000, …)`. -/
def messageIssues (message : String) : List ContactIssue :=
  (if message.length < 20 then
      [⟨"message", "Le message doit contenir au moins 20 caractères"⟩] else []) ++
  (if message.length > 5000 then
      [⟨"message", "Le message ne peut pas dépasser 5000 caractères"⟩] else [])

/-- Issues of `projectType: z.enum(projectTypes).optional()`.  The
message text of a failed enum check is generated inside the Zod
library; it is modelled by the fixed stand-in "Invalid option". -/
def projectTypeIssues (pt : Option String) : List ContactIssue :=
  match pt with
  | Option.none => []
  | some s =>
      if projectTypes.contains s then [] else [⟨"projectType", "Invalid option"⟩]

/-- Issues of `budget: z.enum(budgetRanges).optional()`. -/
def budgetIssues (b : Option String) : List ContactIssue :=
  match b with
  | Option.none => []
  | some s =>
      if budgetRanges.contains s then [] else [⟨"budget", "Invalid option"⟩]

/-- Issues of `honeypot: z.string().max(0, 'Ce champ doit rester
vide').optional()`. -/
def honeypotIssues (h : Option String) : List ContactIssue :=
  match h with
  | Option.none => []
  | some s =>
      if s.length > 0 then [⟨"honeypot", "Ce champ doit rester vide"⟩] else []

/-- All issues of `contactSchema.safeParse` on a shape-correct body, in
schema declaration order; `safeParse` succeeds exactly when this list is
empty, and on failure the route handler maps each issue to
`{field, message}` in this order. -/
def contactSchemaIssues (emailValid : String → Bool) (r : RawSubmission) :
    List ContactIssue :=
  nameIssues r.name ++ emailIssues emailValid r.email ++
  subjectIssues r.subject ++ messageIssues r.message ++
  projectTypeIssues r.projectType ++ budgetIssues r.budget ++
  honeypotIssues r.honeypot

/-! ## Brevo email sending (services/brevo.service.ts, lib/email/brevo.ts) -/

/-- JS truthiness of an optional environment-variable string: unset and
empty are both falsy. -/
def truthy (o : Option String) : Bool :=
  match o with
  | Option.none => false
  | some s => !s.isEmpty

/-- Environment values read by the email sending chain. -/
structure Env where
  nodeEnvProduction : Bool
  brevoApiKey : Option String
  brevoSenderEmail : Option String
  brevoSenderName : Option String
  brevoReceiverEmail : Option String

/-- Outcome of the single `fetch` to the Brevo HTTP endpoint, were it
performed: a 2xx response carrying an optional `messageId`, or a non-ok
response whose parsed error message is `msg`. -/
inductive BrevoFetchOutcome where
  | success (messageId : Option String)
  | httpError (msg : String)

/-- Arguments of `sendContactEmail` (lib/email/brevo.ts). -/
structure SendContactEmailParams where
  name : String
  email : String
  subject : String
  message : String
  projectType : Option String
  budget : Option String

/-- Source function `sendBrevoEmail` (services/brevo.service.ts): throws
when `BREVO_API_KEY` is unset, otherwise performs the fetch and throws
on a non-ok response with `Failed to send email: <message>`.  Throwing
is modelled as `Except.error`; the network outcome is the explicit
parameter `fetch`. -/
def sendBrevoEmail (env : Env) (fetch : BrevoFetchOutcome) :
    Except String (Option String) :=
  if ¬ truthy env.brevoApiKey then
    Except.error ("BREVO_API_KEY is not defined in environment variables")
  else
    match fetch with
    | BrevoFetchOutcome.success mid => Except.ok mid
    | BrevoFetchOutcome.httpError msg =>
        Except.error ("Failed to send email: " ++ msg)

/-- Source function `sendContactEmail` (lib/email/brevo.ts).  In
non-production mode it returns the sentinel `dev-console` without
touching Brevo.  Otherwise it resolves sender and receiver from the
environment (receiver falls back to sender), throws on a missing
required value, builds the request body from the rendered email content
(pure, cannot fail, and irrelevant to the returned value) and calls
`sendBrevoEmail`; the returned messageId falls back to `unknown`. -/
def sendContactEmail (env : Env) (fetch : BrevoFetchOutcome)
    (_params : SendContactEmailParams) : Except String String :=
  if ¬ env.nodeEnvProduction then Except.ok ("dev-console")
  else
    let senderEmail := env.brevoSenderEmail
    let receiverEmail :=
      if truthy env.brevoReceiverEmail then env.brevoReceiverEmail
      else env.brevoSenderEmail
    if ¬ truthy senderEmail then
      Except.error ("BREVO_SENDER_EMAIL is not defined in environment variables")
    else if ¬ truthy receiverEmail then
      Except.error ("BREVO_RECEIVER_EMAIL is not defined in environment variables")
    else
      match sendBrevoEmail env fetch with
      | Except.error e => Except.error e
      | Except.ok mid =>
          Except.ok (if truthy mid then mid.getD ("unknown") else "unknown")

/-! ## POST /api/contact route handler -/

/-- The request body as seen by step 2 of the handler: either
`request.json()` rejects (malformed JSON) or it yields a shape-correct
contact object. -/
inductive RequestBody where
  | invalidJson
  | json (r : RawSubmission)

/-- The JSON response of the route handler: HTTP status plus the fields
of the response object (absent fields are `Option.none`). -/
structure ApiResponse where
  status : Nat
  success : Bool
  message : Option String
  error : Option String
  code : Option String
  errors : Option (List ContactIssue)
  messageId : Option String
  retryAfter : Option String
deriving Repr, DecidableEq

/-- The 429 response of the rate-limit branch. -/
def rateLimitResponse : ApiResponse :=
  ⟨429, false, Option.none,
   some ("Trop de requêtes. Veuillez réessayer dans une minute."),
   some ("RATE_LIMIT_EXCEEDED"), Option.none, Option.none, some ("60")⟩

/-- The 400 response of the JSON-parse-failure branch. -/
def invalidJsonResponse : ApiResponse :=
  ⟨400, false, Option.none, some ("Invalid JSON body"),
   some ("INVALID_JSON"), Option.none, Option.none, Option.none⟩

/-- The 400 response of the Zod-validation-failure branch, carrying the
mapped issue list. -/
def validationErrorResponse (issues : List ContactIssue) : ApiResponse :=
  ⟨400, false, Option.none, some ("Données invalides"),
   some ("VALIDATION_ERROR"), some issues, Option.none, Option.none⟩

/-- The 200 response of the honeypot branch (no messageId). -/
def honeypotSuccessResponse : ApiResponse :=
  ⟨200, true, some ("Message envoyé avec succès !"), Option.none,
   Option.none, Option.none, Option.none, Option.none⟩

/-- The 200 response of the successful send branch. -/
def sendSuccessResponse (messageId : String) : ApiResponse :=
  ⟨200, true, some ("Message envoyé avec succès !"), Option.none,
   Option.none, Option.none, some messageId, Option.none⟩

/-- The 500 response of the catch-all error branch. -/
def serverErrorResponse : ApiResponse :=
  ⟨500, false, Option.none,
   some ("Une erreur est survenue lors de l\x27envoi du message."),
   some ("SERVER_ERROR"), Option.none, Option.none, Option.none⟩

/-- Result of one POST request: the response, the rate-limit map after
the request, and the number of calls made to the email-sending routine
`sendContactEmail`. -/
structure PostOutcome where
  response : ApiResponse
  state : RateLimitMap
  emailCalls : Nat

/-- Source handler `POST(request)` (app/api/contact/route.ts).  Steps in
source order: derive the client identifier from the proxy headers; call
`isRateLimited` with default options (429 with `Retry-After: 60` when
limited); parse the JSON body (400 INVALID_JSON on failure); run
`contactSchema.safeParse` (400 VALIDATION_ERROR with the mapped issue
list on failure); honeypot check on the validated data (200 success
without sending when non-empty); call `sendContactEmail` and answer 200
with its messageId, or 500 SERVER_ERROR when it throws.  `sendResult`
is the outcome `await sendContactEmail(...)` would have; `emailCalls`
counts how many times that call is reached. -/
def POST (emailValid : String → Bool) (sendResult : Except String String)
    (forwardedFor realIp : Option String) (body : RequestBody) (now : Nat)
    (s : RateLimitMap) : PostOutcome :=
  let clientIp := getClientIp forwardedFor realIp
  let rl := isRateLimited clientIp RateLimitOptions.none now s
  if rl.1 then ⟨rateLimitResponse, rl.2, 0⟩
  else
    match body with
    | RequestBody.invalidJson => ⟨invalidJsonResponse, rl.2, 0⟩
    | RequestBody.json r =>
        match contactSchemaIssues emailValid r with
        | issue :: rest => ⟨validationErrorResponse (issue :: rest), rl.2, 0⟩
        | [] =>
            let honeypotTriggered :=
              match r.honeypot with
              | some h => decide (h.length > 0)
              | Option.none => false
            if honeypotTriggered then ⟨honeypotSuccessResponse, rl.2, 0⟩
            else
              match sendResult with
              | Except.ok mid => ⟨sendSuccessResponse mid, rl.2, 1⟩
              | Except.error _ => ⟨serverErrorResponse, rl.2, 1⟩

/-! ## Default-resolution helper lemmas -/

theorem default_maxRequests_resolves :
    RateLimitOptions.none.maxRequests.getD DEFAULT_MAX_REQUESTS = 5 := rfl

theorem default_windowMs_resolves :
    RateLimitOptions.none.windowMs.getD DEFAULT_WINDOW_MS = 60000 := rfl

/-! ## Concrete submissions used to evaluate the code -/

/-- A submission whose `name`, `email`, `subject` and `message` satisfy
every length constraint and whose honeypot field is non-empty (an
automated sender). -/
def botSubmission : RawSubmission :=
  ⟨"Jean Dupont", "jean@example.com", "Hello there",
   "This message is long enough to pass validation.",
   Option.none, Option.none, some ("I am a bot")⟩

/-- The same submission with the honeypot empty. -/
def humanSubmission : RawSubmission :=
  ⟨"Jean Dupont", "jean@example.com", "Hello there",
   "This message is long enough to pass validation.",
   Option.none, Option.none, some ("")⟩

/-- An email-validity instantiation that accepts everything; the Zod
email check does accept the concrete address used above. -/
def acceptAllEmails : String → Bool := fun _ => true

/-! ## Claim theorems: honeypot versus schema -/

/-- C2 (code evaluated at the failing input).  The claim states that a
non-empty honeypot does not invalidate the schema.  The code disagrees:
`honeypot: z.string().max(0, 'Ce champ doit rester vide')` makes
`contactSchema.safeParse` fail on any non-empty honeypot, so the
orchestration-layer honeypot branch of the route handler is
unreachable.  This theorem evaluates the embedded schema on a
submission whose other fields satisfy every constraint: with the
honeypot non-empty validation fails with exactly the honeypot issue,
and with the honeypot empty it succeeds. -/
theorem C2_schema_rejects_nonempty_honeypot :
    contactSchemaIssues acceptAllEmails botSubmission =
      [⟨"honeypot", "Ce champ doit rester vide"⟩] ∧
    contactSchemaIssues acceptAllEmails humanSubmission = [] := by
  constructor <;> rfl

/-- C3 (code evaluated at the failing input).  The claim states that a
non-rate-limited, JSON-parseable request with a non-empty honeypot gets
a success response.  The code instead answers 400 VALIDATION_ERROR
(because the schema rejects the honeypot, see C2); the no-email half of
the claim does hold (zero calls to the email-sending routine). -/
theorem C3_honeypot_request_gets_validation_error :
    (POST acceptAllEmails (Except.ok ("mid-1")) (some ("5.6.7.8"))
        Option.none (RequestBody.json botSubmission) 1000
        RateLimitMap.empty).response.status = 400 ∧
    (POST acceptAllEmails (Except.ok ("mid-1")) (some ("5.6.7.8"))
        Option.none (RequestBody.json botSubmission) 1000
        RateLimitMap.empty).response.success = false ∧
    (POST acceptAllEmails (Except.ok ("mid-1")) (some ("5.6.7.8"))
        Option.none (RequestBody.json botSubmission) 1000
        RateLimitMap.empty).response.code = some ("VALIDATION_ERROR") ∧
    (POST acceptAllEmails (Except.ok ("mid-1")) (some ("5.6.7.8"))
        Option.none (RequestBody.json botSubmission) 1000
        RateLimitMap.empty).emailCalls = 0 := by
  refine ⟨rfl, rfl, rfl, rfl⟩

/-! ## Claim theorems: malformed JSON -/

/-- A rate-limit state in which the client at 9.9.9.9 has already made
five requests in the current window. -/
def exhaustedState : RateLimitMap :=
  RateLimitMap.empty.set ("9.9.9.9") ⟨5, 100000⟩

/-- C5 counterexample.  The claim says a malformed JSON body yields 400
INVALID_JSON independent of the current rate-limit state.  It does not:
the handler checks the rate limit before parsing, so a rate-limited
client sending malformed JSON receives 429 RATE_LIMIT_EXCEEDED. -/
theorem C5_counterexample_rate_limited_malformed_json :
    (POST acceptAllEmails (Except.ok ("m")) (some ("9.9.9.9")) Option.none
        RequestBody.invalidJson 50000 exhaustedState).response.status = 429 ∧
    (POST acceptAllEmails (Except.ok ("m")) (some ("9.9.9.9")) Option.none
        RequestBody.invalidJson 50000 exhaustedState).response.code =
      some ("RATE_LIMIT_EXCEEDED") ∧
    ¬ ((POST acceptAllEmails (Except.ok ("m")) (some ("9.9.9.9")) Option.none
        RequestBody.invalidJson 50000 exhaustedState).response.status = 400 ∧
       (POST acceptAllEmails (Except.ok ("m")) (some ("9.9.9.9")) Option.none
        RequestBody.invalidJson 50000 exhaustedState).response.code =
         some ("INVALID_JSON")) := by
  have h429 : (POST acceptAllEmails (Except.ok ("m")) (some ("9.9.9.9"))
      Option.none RequestBody.invalidJson 50000
      exhaustedState).response.status = 429 := rfl
  refine ⟨h429, rfl, fun hc => ?_⟩
  have h1 : (429 : Nat) = 400 := Eq.trans h429.symm hc.1
  exact absurd h1 (by decide)

/-- C5 amended.  For every POST request that passes the rate-limit
check and whose body is not well-formed JSON, the handler responds with
exactly the 400 INVALID_JSON response, independent of any schema
considerations (validation is never reached). -/
theorem C5_invalid_json_when_not_limited (emailValid : String → Bool)
    (sendResult : Except String String) (ff rip : Option String) (now : Nat)
    (s : RateLimitMap)
    (h : (isRateLimited (getClientIp ff rip) RateLimitOptions.none now s).1
          = false) :
    (POST emailValid sendResult ff rip RequestBody.invalidJson now s).response
        = invalidJsonResponse ∧
    (POST emailValid sendResult ff rip RequestBody.invalidJson now s).response.status
        = 400 ∧
    (POST emailValid sendResult ff rip RequestBody.invalidJson now s).response.code
        = some ("INVALID_JSON") := by
  have hresp : (POST emailValid sendResult ff rip RequestBody.invalidJson now
      s).response = invalidJsonResponse := by
    simp [POST, h]
  refine ⟨hresp, ?_, ?_⟩
  · rw [hresp]
    rfl
  · rw [hresp]
    rfl

/-- Closed witness for C5 amended: a fresh client sending malformed
JSON gets the 400 INVALID_JSON response. -/
theorem C5_invalid_json_when_not_limited_witness :
    (POST acceptAllEmails (Except.ok ("m")) (some ("9.9.9.9")) Option.none
        RequestBody.invalidJson 7 RateLimitMap.empty).response
      = invalidJsonResponse := by
  exact (C5_invalid_json_when_not_limited acceptAllEmails (Except.ok ("m"))
    (some ("9.9.9.9")) Option.none 7 RateLimitMap.empty (by rfl)).1

/-! ## Claim theorems: email configuration -/

/-- C6.  For every send of a contact email (the send path is only taken
in production mode; outside production the transport is bypassed by
design and nothing is sent): absence of the configured API credential
makes the call fail at the point of use with the BREVO_API_KEY
configuration error, and a missing sender address likewise fails the
send path with its own configuration error rather than being silently
skipped.  (The receiver address falls back to the sender, so it can
only be missing when the sender is.) -/
theorem C6_missing_config_fails_send (env : Env) (fetch : BrevoFetchOutcome)
    (params : SendContactEmailParams) (hprod : env.nodeEnvProduction = true) :
    (truthy env.brevoSenderEmail = true → truthy env.brevoApiKey = false →
        sendContactEmail env fetch params =
          Except.error ("BREVO_API_KEY is not defined in environment variables")) ∧
    (truthy env.brevoSenderEmail = false →
        sendContactEmail env fetch params =
          Except.error ("BREVO_SENDER_EMAIL is not defined in environment variables")) := by
  constructor
  · intro hsender hkey
    have hrecv : truthy (if truthy env.brevoReceiverEmail then
        env.brevoReceiverEmail else env.brevoSenderEmail) = true := by
      by_cases hr : truthy env.brevoReceiverEmail
      · simp [hr]
      · simp [hr, hsender]
    simp [sendContactEmail, hprod, hsender, hrecv, sendBrevoEmail, hkey]
  · intro hsender
    simp [sendContactEmail, hprod, hsender]

/-- Closed witness for C6: in production with the sender configured but
no API key the send fails with the API-key error, and with no sender it
fails with the sender error. -/
theorem C6_missing_config_fails_send_witness :
    sendContactEmail
        ⟨true, Option.none, some ("me@example.com"), Option.none, Option.none⟩
        (BrevoFetchOutcome.success (some ("id-1")))
        ⟨"Jean", "jean@example.com", "Hi", "msg", Option.none, Option.none⟩ =
      Except.error ("BREVO_API_KEY is not defined in environment variables") ∧
    sendContactEmail
        ⟨true, some ("key"), Option.none, Option.none, Option.none⟩
        (BrevoFetchOutcome.success (some ("id-1")))
        ⟨"Jean", "jean@example.com", "Hi", "msg", Option.none, Option.none⟩ =
      Except.error ("BREVO_SENDER_EMAIL is not defined in environment variables") := by
  constructor
  · exact (C6_missing_config_fails_send
      ⟨true, Option.none, some ("me@example.com"), Option.none, Option.none⟩
      (BrevoFetchOutcome.success (some ("id-1")))
      ⟨"Jean", "jean@example.com", "Hi", "msg", Option.none, Option.none⟩
      rfl).1 (by rfl) (by rfl)
  · exact (C6_missing_config_fails_send
      ⟨true, some ("key"), Option.none, Option.none, Option.none⟩
      (BrevoFetchOutcome.success (some ("id-1")))
      ⟨"Jean", "jean@example.com", "Hi", "msg", Option.none, Option.none⟩
      rfl).2 (by rfl)

/-! ## Claim theorems: side effects of one POST request -/

/-- C8.  Every POST request mutates the rate-limit state: the map after
the request is exactly the map produced by the `isRateLimited` call
(regardless of the later outcome), the record of the derived client
identifier is created or incremented (so it genuinely changes), and no
other key is touched.  The successful send path performs exactly one
call to the email-sending routine, and a request whose honeypot field
is non-empty performs zero. -/
theorem C8_state_mutation_and_dispatch_counts (emailValid : String → Bool)
    (sendResult : Except String String) (ff rip : Option String)
    (body : RequestBody) (now : Nat) (s : RateLimitMap) :
    (POST emailValid sendResult ff rip body now s).state
        = (isRateLimited (getClientIp ff rip) RateLimitOptions.none now s).2 ∧
    (POST emailValid sendResult ff rip body now s).state (getClientIp ff rip)
        ≠ s (getClientIp ff rip) ∧
    (∀ k, k ≠ getClientIp ff rip →
        (POST emailValid sendResult ff rip body now s).state k = s k) ∧
    ((POST emailValid sendResult ff rip body now s).response.success = true →
        (POST emailValid sendResult ff rip body now s).response.messageId
          ≠ Option.none →
        (POST emailValid sendResult ff rip body now s).emailCalls = 1) ∧
    (∀ r, body = RequestBody.json r → ∀ hp, r.honeypot = some hp →
        hp.length > 0 →
        (POST emailValid sendResult ff rip body now s).emailCalls = 0) := by
  have hW : RateLimitOptions.none.windowMs.getD DEFAULT_WINDOW_MS = 60000 := rfl
  have hstate : (POST emailValid sendResult ff rip body now s).state
      = (isRateLimited (getClientIp ff rip) RateLimitOptions.none now s).2 := by
    cases hb : (isRateLimited (getClientIp ff rip) RateLimitOptions.none now s).1
    · cases body with
      | invalidJson => simp [POST, hb]
      | json r =>
          cases hi : contactSchemaIssues emailValid r with
          | cons a l => simp [POST, hb, hi]
          | nil =>
              cases hh : r.honeypot with
              | some hp =>
                  by_cases hl : hp.length > 0
                  · simp [POST, hb, hi, hh, hl]
                  · cases sendResult <;> simp [POST, hb, hi, hh, hl]
              | none => cases sendResult <;> simp [POST, hb, hi, hh]
    · simp [POST, hb]
  have hmut : (isRateLimited (getClientIp ff rip) RateLimitOptions.none now
      s).2 (getClientIp ff rip) ≠ s (getClientIp ff rip) := by
    cases hs : s (getClientIp ff rip) with
    | none =>
        rw [isRateLimited_fresh_snd _ _ _ _ (Or.inl hs),
          RateLimitMap.set_self]
        simp
    | some r =>
        by_cases hexp : now > r.resetTime
        · rw [isRateLimited_fresh_snd _ _ _ _ (Or.inr ⟨r, hs, hexp⟩),
            RateLimitMap.set_self, hW]
          intro heq
          have h2 : (⟨1, now + 60000⟩ : RateLimitRecord) = r :=
            Option.some.inj heq
          have h3 : now + 60000 = r.resetTime :=
            congrArg RateLimitRecord.resetTime h2
          omega
        · rw [isRateLimited_inWindow_snd _ _ _ _ r hs hexp,
            RateLimitMap.set_self]
          intro heq
          have h2 : (⟨r.count + 1, r.resetTime⟩ : RateLimitRecord) = r :=
            Option.some.inj heq
          have h3 : r.count + 1 = r.count := congrArg RateLimitRecord.count h2
          omega
  have hframe : ∀ k, k ≠ getClientIp ff rip →
      (isRateLimited (getClientIp ff rip) RateLimitOptions.none now s).2 k
        = s k := by
    intro k hk
    cases hs : s (getClientIp ff rip) with
    | none =>
        rw [isRateLimited_fresh_snd _ _ _ _ (Or.inl hs)]
        exact RateLimitMap.set_other _ _ _ _ hk
    | some r =>
        by_cases hexp : now > r.resetTime
        · rw [isRateLimited_fresh_snd _ _ _ _ (Or.inr ⟨r, hs, hexp⟩)]
          exact RateLimitMap.set_other _ _ _ _ hk
        · rw [isRateLimited_inWindow_snd _ _ _ _ r hs hexp]
          exact RateLimitMap.set_other _ _ _ _ hk
  refine ⟨hstate, hstate ▸ hmut, fun k hk => (congrFun hstate k) ▸ hframe k hk,
    ?_, ?_⟩
  · cases hb : (isRateLimited (getClientIp ff rip) RateLimitOptions.none now
        s).1
    · cases body with
      | invalidJson => simp [POST, hb, invalidJsonResponse]
      | json r =>
          cases hi : contactSchemaIssues emailValid r with
          | cons a l => simp [POST, hb, hi, validationErrorResponse]
          | nil =>
              cases hh : r.honeypot with
              | some hp =>
                  by_cases hl : hp.length > 0
                  · simp [POST, hb, hi, hh, hl, honeypotSuccessResponse]
                  · cases sendResult <;>
                      simp [POST, hb, hi, hh, hl, sendSuccessResponse,
                        serverErrorResponse]
              | none =>
                  cases sendResult <;>
                    simp [POST, hb, hi, hh, sendSuccessResponse,
                      serverErrorResponse]
    · simp [POST, hb, rateLimitResponse]
  · intro r hbody hp hh hl
    subst hbody
    cases hb : (isRateLimited (getClientIp ff rip) RateLimitOptions.none now
        s).1
    · cases hi : contactSchemaIssues emailValid r with
      | cons a l => simp [POST, hb, hi]
      | nil =>
          exfalso
          have hparts := hi
          unfold contactSchemaIssues at hparts
          simp only [List.append_eq_nil] at hparts
          have hhp := hparts.2
          rw [hh] at hhp
          simp [honeypotIssues, hl] at hhp
    · simp [POST, hb]

/-- Closed witness for C8: a clean submission sent from a fresh client
dispatches exactly one email, and a honeypot-carrying one dispatches
none. -/
theorem C8_state_mutation_and_dispatch_counts_witness :
    (POST acceptAllEmails (Except.ok ("mid")) (some ("1.2.3.4")) Option.none
        (RequestBody.json humanSubmission) 0 RateLimitMap.empty).emailCalls
      = 1 ∧
    (POST acceptAllEmails (Except.ok ("mid")) (some ("1.2.3.4")) Option.none
        (RequestBody.json botSubmission) 0 RateLimitMap.empty).emailCalls
      = 0 := by
  constructor
  · exact (C8_state_mutation_and_dispatch_counts acceptAllEmails
      (Except.ok ("mid")) (some ("1.2.3.4")) Option.none
      (RequestBody.json humanSubmission) 0 RateLimitMap.empty).2.2.2.1
      (by rfl) (by decide)
  · exact (C8_state_mutation_and_dispatch_counts acceptAllEmails
      (Except.ok ("mid")) (some ("1.2.3.4")) Option.none
      (RequestBody.json botSubmission) 0 RateLimitMap.empty).2.2.2.2
      botSubmission rfl ("I am a bot") rfl (by decide)

/-! ## Claim theorems: single-violation validation errors -/

/-- C9.  First conjunct: for every submission on which the schema
produces exactly one issue (exactly one field constraint violated), a
non-rate-limited POST responds with exactly the 400 VALIDATION_ERROR
response whose errors list is that one `{field, message}` entry.
Second conjunct: a submission whose other fields satisfy their
constraints and whose message is shorter than 20 characters produces
exactly the single min-length issue on the `message` field — in
particular a message of length 5 yields
`errors: [{field: "message", message: <min-length text>}]`. -/
theorem C9_single_violation_single_error (emailValid : String → Bool)
    (sendResult : Except String String) (ff rip : Option String) (now : Nat)
    (s : RateLimitMap) (r : RawSubmission) :
    ((isRateLimited (getClientIp ff rip) RateLimitOptions.none now s).1
        = false →
      ∀ f m, contactSchemaIssues emailValid r = [⟨f, m⟩] →
        (POST emailValid sendResult ff rip (RequestBody.json r) now
            s).response = validationErrorResponse [⟨f, m⟩] ∧
        (POST emailValid sendResult ff rip (RequestBody.json r) now
            s).response.status = 400 ∧
        (POST emailValid sendResult ff rip (RequestBody.json r) now
            s).response.code = some ("VALIDATION_ERROR") ∧
        (POST emailValid sendResult ff rip (RequestBody.json r) now
            s).response.errors = some [⟨f, m⟩]) ∧
    (2 ≤ r.name.length → r.name.length ≤ 100 → emailValid r.email = true →
      r.email.length ≤ 255 → 3 ≤ r.subject.length → r.subject.length ≤ 200 →
      r.message.length < 20 →
      (∀ x, r.projectType = some x → projectTypes.contains x = true) →
      (∀ x, r.budget = some x → budgetRanges.contains x = true) →
      (∀ x, r.honeypot = some x → x.length = 0) →
      contactSchemaIssues emailValid r =
        [⟨"message", "Le message doit contenir au moins 20 caractères"⟩]) := by
  constructor
  · intro hnl f m hone
    have hresp : (POST emailValid sendResult ff rip (RequestBody.json r) now
        s).response = validationErrorResponse [⟨f, m⟩] := by
      simp [POST, hnl, hone]
    refine ⟨hresp, ?_, ?_, ?_⟩ <;> rw [hresp] <;> rfl
  · intro hn1 hn2 hev he2 hs1 hs2 hm1 hpt hbu hhp
    have hn1n : ¬ r.name.length < 2 := by omega
    have hn2n : ¬ r.name.length > 100 := by omega
    have he2n : ¬ r.email.length > 255 := by omega
    have hs1n : ¬ r.subject.length < 3 := by omega
    have hs2n : ¬ r.subject.length > 200 := by omega
    have hm2n : ¬ r.message.length > 5000 := by omega
    have hptn : projectTypeIssues r.projectType = [] := by
      cases hx : r.projectType with
      | none => rfl
      | some x =>
          have hc := hpt x hx
          simp only [projectTypeIssues]
          rw [hc]
          simp
    have hbun : budgetIssues r.budget = [] := by
      cases hx : r.budget with
      | none => rfl
      | some x =>
          have hc := hbu x hx
          simp only [budgetIssues]
          rw [hc]
          simp
    have hhpn : honeypotIssues r.honeypot = [] := by
      cases hx : r.honeypot with
      | none => rfl
      | some x => simp [honeypotIssues, hhp x hx]
    simp [contactSchemaIssues, nameIssues, emailIssues, subjectIssues,
      messageIssues, hn1n, hn2n, hev, he2n, hs1n, hs2n, hm1, hm2n, hptn,
      hbun, hhpn]

/-- Closed witness for C9: the submission with a 5-character message
and all other fields valid yields exactly the one min-length error on
the `message` field, and the endpoint answers 400 VALIDATION_ERROR with
that single entry. -/
theorem C9_single_violation_single_error_witness :
    contactSchemaIssues acceptAllEmails
        ⟨"Jean Dupont", "jean@example.com", "Hello there", "12345",
         Option.none, Option.none, some ("")⟩ =
      [⟨"message", "Le message doit contenir au moins 20 caractères"⟩] ∧
    (POST acceptAllEmails (Except.ok ("mid")) (some ("1.2.3.4")) Option.none
        (RequestBody.json
          ⟨"Jean Dupont", "jean@example.com", "Hello there", "12345",
           Option.none, Option.none, some ("")⟩) 0
        RateLimitMap.empty).response =
      validationErrorResponse
        [⟨"message", "Le message doit contenir au moins 20 caractères"⟩] := by
  have h := C9_single_violation_single_error acceptAllEmails
    (Except.ok ("mid")) (some ("1.2.3.4")) Option.none 0 RateLimitMap.empty
    ⟨"Jean Dupont", "jean@example.com", "Hello there", "12345",
     Option.none, Option.none, some ("")⟩
  have hone := h.2 (by decide) (by decide) (by rfl) (by decide) (by decide)
    (by decide) (by decide) (fun x hx => by cases hx) (fun x hx => by cases hx)
    (fun x hx => by
      have hxe : x = "" := (Option.some.inj hx).symm
      rw [hxe]
      decide)
  exact ⟨hone, (h.1 (by rfl) ("message")
    ("Le message doit contenir au moins 20 caractères") hone).1⟩

/-! ## Request sequences against the rate limiter -/

/-- The booleans returned by a sequence of `isRateLimited` calls for one
key with default options, at the given `Date.now()` values, threading
the map through. -/
def runSame (key : String) : List Nat → RateLimitMap → List Bool
  | [], _ => []
  | t :: ts, s =>
      (isRateLimited key RateLimitOptions.none t s).1 ::
        runSame key ts (isRateLimited key RateLimitOptions.none t s).2

/-- While the stored window (ending at `e`) has not elapsed, the i-th
call of a sequence starting from a record with count `c` sees the
post-increment count `c + i + 1` and is limited exactly when that
exceeds the default maximum of 5. -/
theorem runSame_inWindow (key : String) :
    ∀ (ts : List Nat) (c e : Nat) (s : RateLimitMap),
      s key = some ⟨c, e⟩ → (∀ t ∈ ts, t ≤ e) →
      ∀ i, i < ts.length →
        (runSame key ts s).getD i false = decide (c + i + 1 > 5) := by
  intro ts
  induction ts with
  | nil =>
      intro c e s _ _ i hi
      simp at hi
  | cons t ts ih =>
      intro c e s hs hts i hi
      have ht : ¬ t > e := by
        have := hts t (List.mem_cons_self t ts)
        omega
      cases i with
      | zero =>
          have hfst := isRateLimited_inWindow_fst key RateLimitOptions.none t s
            ⟨c, e⟩ hs ht
          simp only [runSame, List.getD_cons_zero]
          rw [hfst]
          rfl
      | succ j =>
          simp only [runSame, List.getD_cons_succ]
          have hs' : (isRateLimited key RateLimitOptions.none t s).2 key
              = some ⟨c + 1, e⟩ := by
            rw [isRateLimited_inWindow_snd key RateLimitOptions.none t s
              ⟨c, e⟩ hs ht]
            exact RateLimitMap.set_self ..
          have hts' : ∀ u ∈ ts, u ≤ e :=
            fun u hu => hts u (List.mem_cons_of_mem _ hu)
          have hj : j < ts.length := by
            simpa using hi
          have hrec := ih (c + 1) e _ hs' hts' j hj
          rw [hrec]
          have harg : c + 1 + j + 1 = c + (j + 1) + 1 := by omega
          rw [harg]

/-- C4.  First conjunct: for one client identifier whose key is fresh,
a sequence of calls all lying inside the 60-second window opened by the
first call returns, at 0-based position i, limited exactly when
`i + 1 > 5`: none of the first five requests is flagged limited and
every request from the sixth on is.  Second conjunct: the route handler
turns a limited check into status 429 with header `Retry-After: 60`,
and an unlimited check never yields 429 or RATE_LIMIT_EXCEEDED. -/
theorem C4_six_requests_in_window (key : String) (t0 : Nat)
    (rest : List Nat) (s : RateLimitMap) :
    (s key = Option.none → (∀ t ∈ rest, t ≤ t0 + 60000) →
      ∀ i, i < (t0 :: rest).length →
        (runSame key (t0 :: rest) s).getD i false = decide (i + 1 > 5)) ∧
    (∀ (emailValid : String → Bool) (sendResult : Except String String)
        (ff rip : Option String) (body : RequestBody) (now : Nat)
        (s' : RateLimitMap),
      ((isRateLimited (getClientIp ff rip) RateLimitOptions.none now s').1
          = true →
        (POST emailValid sendResult ff rip body now s').response.status = 429 ∧
        (POST emailValid sendResult ff rip body now s').response.retryAfter
          = some ("60")) ∧
      ((isRateLimited (getClientIp ff rip) RateLimitOptions.none now s').1
          = false →
        (POST emailValid sendResult ff rip body now s').response.status ≠ 429 ∧
        (POST emailValid sendResult ff rip body now s').response.code
          ≠ some ("RATE_LIMIT_EXCEEDED"))) := by
  constructor
  · intro hs hrest i hi
    cases i with
    | zero =>
        have hfst := isRateLimited_fresh_fst key RateLimitOptions.none t0 s
          (Or.inl hs)
        simp only [runSame, List.getD_cons_zero]
        rw [hfst]
        rfl
    | succ j =>
        simp only [runSame, List.getD_cons_succ]
        have hs' : (isRateLimited key RateLimitOptions.none t0 s).2 key
            = some ⟨1, t0 + 60000⟩ := by
          rw [isRateLimited_fresh_snd key RateLimitOptions.none t0 s
            (Or.inl hs), RateLimitMap.set_self]
          rfl
        have hj : j < rest.length := by
          simpa using hi
        have hrec := runSame_inWindow key rest 1 (t0 + 60000) _ hs' hrest j hj
        rw [hrec]
        have harg : 1 + j + 1 = j + 1 + 1 := by omega
        rw [harg]
  · intro emailValid sendResult ff rip body now s'
    constructor
    · intro hb
      have hresp : (POST emailValid sendResult ff rip body now s').response
          = rateLimitResponse := by
        simp [POST, hb]
      refine ⟨?_, ?_⟩ <;> rw [hresp] <;> rfl
    · intro hb
      cases body with
      | invalidJson =>
          have hresp : (POST emailValid sendResult ff rip
              RequestBody.invalidJson now s').response = invalidJsonResponse := by
            simp [POST, hb]
          refine ⟨?_, ?_⟩ <;> rw [hresp] <;> simp [invalidJsonResponse]
      | json r =>
          cases hi : contactSchemaIssues emailValid r with
          | cons a l =>
              have hresp : (POST emailValid sendResult ff rip
                  (RequestBody.json r) now s').response
                  = validationErrorResponse (a :: l) := by
                simp [POST, hb, hi]
              refine ⟨?_, ?_⟩ <;> rw [hresp] <;> simp [validationErrorResponse]
          | nil =>
              cases hh : r.honeypot with
              | some hp =>
                  by_cases hl : hp.length > 0
                  · have hresp : (POST emailValid sendResult ff rip
                        (RequestBody.json r) now s').response
                        = honeypotSuccessResponse := by
                      simp [POST, hb, hi, hh, hl]
                    refine ⟨?_, ?_⟩ <;> rw [hresp] <;>
                      simp [honeypotSuccessResponse]
                  · cases sendResult with
                    | ok mid =>
                        have hresp : (POST emailValid (Except.ok mid) ff rip
                            (RequestBody.json r) now s').response
                            = sendSuccessResponse mid := by
                          simp [POST, hb, hi, hh, hl]
                        refine ⟨?_, ?_⟩ <;> rw [hresp] <;>
                          simp [sendSuccessResponse]
                    | error e =>
                        have hresp : (POST emailValid (Except.error e) ff rip
                            (RequestBody.json r) now s').response
                            = serverErrorResponse := by
                          simp [POST, hb, hi, hh, hl]
                        refine ⟨?_, ?_⟩ <;> rw [hresp] <;>
                          simp [serverErrorResponse]
              | none =>
                  cases sendResult with
                  | ok mid =>
                      have hresp : (POST emailValid (Except.ok mid) ff rip
                          (RequestBody.json r) now s').response
                          = sendSuccessResponse mid := by
                        simp [POST, hb, hi, hh]
                      refine ⟨?_, ?_⟩ <;> rw [hresp] <;>
                        simp [sendSuccessResponse]
                  | error e =>
                      have hresp : (POST emailValid (Except.error e) ff rip
                          (RequestBody.json r) now s').response
                          = serverErrorResponse := by
                        simp [POST, hb, hi, hh]
                      refine ⟨?_, ?_⟩ <;> rw [hresp] <;>
                        simp [serverErrorResponse]

/-- Closed witness for C4: six same-window requests from one fresh
identifier; the first is not limited, the sixth is, and a limited
request receives 429 with Retry-After 60 from the handler. -/
theorem C4_six_requests_in_window_witness :
    (runSame ("1.2.3.4") [0, 1, 2, 3, 4, 5] RateLimitMap.empty).getD 5 false
      = true ∧
    (runSame ("1.2.3.4") [0, 1, 2, 3, 4, 5] RateLimitMap.empty).getD 0 false
      = false ∧
    (POST acceptAllEmails (Except.ok ("m")) (some ("9.9.9.9")) Option.none
        RequestBody.invalidJson 50000 exhaustedState).response.status = 429 ∧
    (POST acceptAllEmails (Except.ok ("m")) (some ("9.9.9.9")) Option.none
        RequestBody.invalidJson 50000 exhaustedState).response.retryAfter
      = some ("60") := by
  have h := C4_six_requests_in_window ("1.2.3.4") 0 [1, 2, 3, 4, 5]
    RateLimitMap.empty
  have h6 := h.1 rfl (by decide) 5 (by decide)
  have h1 := h.1 rfl (by decide) 0 (by decide)
  have h429 := (h.2 acceptAllEmails (Except.ok ("m")) (some ("9.9.9.9"))
    Option.none RequestBody.invalidJson 50000 exhaustedState).1 (by rfl)
  exact ⟨h6.trans (by decide), h1.trans (by decide), h429.1, h429.2⟩

/-! ## The periodic sweep commutes with rate-limit checks -/

/-- Running the sweep at time `tc` and then checking at any `t ≥ tc`
gives the same boolean as checking directly, and the resulting map is
again the sweep of the map the direct check produces. -/
theorem cleanup_isRateLimited_comm (k : String) (o : RateLimitOptions)
    (t tc : Nat) (s : RateLimitMap) (h : tc ≤ t) :
    (isRateLimited k o t (cleanupRateLimitMap tc s)).1
        = (isRateLimited k o t s).1 ∧
    (isRateLimited k o t (cleanupRateLimitMap tc s)).2
        = cleanupRateLimitMap tc ((isRateLimited k o t s).2) := by
  have hfreshmap : ∀ (hs1 : cleanupRateLimitMap tc s k = Option.none ∨
      ∃ r, cleanupRateLimitMap tc s k = some r ∧ t > r.resetTime)
      (hs2 : s k = Option.none ∨ ∃ r, s k = some r ∧ t > r.resetTime),
      (isRateLimited k o t (cleanupRateLimitMap tc s)).2
        = cleanupRateLimitMap tc ((isRateLimited k o t s).2) := by
    intro hs1 hs2
    rw [isRateLimited_fresh_snd k o t _ hs1, isRateLimited_fresh_snd k o t s hs2]
    funext k'
    by_cases hk : k' = k
    · subst hk
      have hno : ¬ tc > t + o.windowMs.getD DEFAULT_WINDOW_MS := by omega
      simp [cleanupRateLimitMap, RateLimitMap.set_self, hno]
    · rw [RateLimitMap.set_other _ _ _ _ hk]
      simp [cleanupRateLimitMap, RateLimitMap.set_other _ _ _ _ hk]
  cases hs : s k with
  | none =>
      have hc : cleanupRateLimitMap tc s k = Option.none := by
        simp [cleanupRateLimitMap, hs]
      exact ⟨by rw [isRateLimited_fresh_fst k o t _ (Or.inl hc),
          isRateLimited_fresh_fst k o t s (Or.inl hs)],
        hfreshmap (Or.inl hc) (Or.inl hs)⟩
  | some r =>
      by_cases hdrop : tc > r.resetTime
      · have hc : cleanupRateLimitMap tc s k = Option.none := by
          simp [cleanupRateLimitMap, hs, hdrop]
        have hexp : t > r.resetTime := by omega
        exact ⟨by rw [isRateLimited_fresh_fst k o t _ (Or.inl hc),
            isRateLimited_fresh_fst k o t s (Or.inr ⟨r, hs, hexp⟩)],
          hfreshmap (Or.inl hc) (Or.inr ⟨r, hs, hexp⟩)⟩
      · have hc : cleanupRateLimitMap tc s k = some r := by
          simp [cleanupRateLimitMap, hs, hdrop]
        by_cases hexp : t > r.resetTime
        · exact ⟨by rw [isRateLimited_fresh_fst k o t _ (Or.inr ⟨r, hc, hexp⟩),
              isRateLimited_fresh_fst k o t s (Or.inr ⟨r, hs, hexp⟩)],
            hfreshmap (Or.inr ⟨r, hc, hexp⟩) (Or.inr ⟨r, hs, hexp⟩)⟩
        · constructor
          · rw [isRateLimited_inWindow_fst k o t _ r hc hexp,
              isRateLimited_inWindow_fst k o t s r hs hexp]
          · rw [isRateLimited_inWindow_snd k o t _ r hc hexp,
              isRateLimited_inWindow_snd k o t s r hs hexp]
            funext k'
            by_cases hk : k' = k
            · subst hk
              simp [cleanupRateLimitMap, RateLimitMap.set_self, hdrop]
            · rw [RateLimitMap.set_other _ _ _ _ hk]
              simp [cleanupRateLimitMap, RateLimitMap.set_other _ _ _ _ hk]

/-- The booleans returned by a sequence of `isRateLimited` calls, each
given as (Date.now() value, key, options), threading the map through. -/
def runCalls : List (Nat × String × RateLimitOptions) → RateLimitMap → List Bool
  | [], _ => []
  | (t, k, o) :: rest, s =>
      (isRateLimited k o t s).1 ::
        runCalls rest (isRateLimited k o t s).2

/-- C7.  First part: the sweep `cleanupRateLimitMap` removes exactly
the records whose window has elapsed at sweep time (`tc > resetTime`)
and leaves every other record unchanged.  Second part: running the
sweep at time `tc` between `isRateLimited` calls never changes the
boolean result of any subsequent call (all later calls happening at
times ≥ tc): the whole trace of booleans is identical with and without
the sweep, so sweep timing affects only memory footprint. -/
theorem C7_cleanup_never_changes_results :
    (∀ (tc : Nat) (s : RateLimitMap) (k : String),
      (cleanupRateLimitMap tc s k = Option.none ↔
        s k = Option.none ∨ ∃ r, s k = some r ∧ tc > r.resetTime) ∧
      (∀ r, s k = some r → ¬ tc > r.resetTime →
        cleanupRateLimitMap tc s k = some r)) ∧
    (∀ (tc : Nat) (calls : List (Nat × String × RateLimitOptions))
        (s : RateLimitMap), (∀ c ∈ calls, tc ≤ c.1) →
      runCalls calls (cleanupRateLimitMap tc s) = runCalls calls s) := by
  constructor
  · intro tc s k
    constructor
    · cases hs : s k with
      | none => simp [cleanupRateLimitMap, hs]
      | some r =>
          by_cases hdrop : tc > r.resetTime
          · simp [cleanupRateLimitMap, hs, hdrop]
          · simp [cleanupRateLimitMap, hs, hdrop]
    · intro r hr hkeep
      simp [cleanupRateLimitMap, hr, hkeep]
  · intro tc calls
    induction calls with
    | nil => intro s _; rfl
    | cons c rest ih =>
        intro s h
        obtain ⟨t, k, o⟩ := c
        have ht : tc ≤ t := h (t, k, o) (List.mem_cons_self ..)
        have hcomm := cleanup_isRateLimited_comm k o t tc s ht
        simp only [runCalls]
        rw [hcomm.1, hcomm.2,
          ih _ (fun c hc => h c (List.mem_cons_of_mem _ hc))]

/-- A state with one record expired well before the sweep and one still
live. -/
def twoKeyState : RateLimitMap :=
  (RateLimitMap.empty.set ("a") ⟨3, 100000⟩).set ("b") ⟨2, 300000⟩

/-- Closed witness for C7: sweeping at t = 200000 drops the expired
record for key a, keeps the live one, and leaves the booleans of a
concrete two-call trace unchanged. -/
theorem C7_cleanup_never_changes_results_witness :
    runCalls [(200000, "a", RateLimitOptions.none),
        (250000, "b", RateLimitOptions.none)]
        (cleanupRateLimitMap 200000 twoKeyState)
      = runCalls [(200000, "a", RateLimitOptions.none),
        (250000, "b", RateLimitOptions.none)] twoKeyState ∧
    cleanupRateLimitMap 200000 twoKeyState ("a") = Option.none ∧
    cleanupRateLimitMap 200000 twoKeyState ("b") = some ⟨2, 300000⟩ := by
  have h := C7_cleanup_never_changes_results
  refine ⟨h.2 200000 _ twoKeyState (by decide), ?_, ?_⟩
  · exact (h.1 200000 twoKeyState ("a")).1.mpr
      (Or.inr ⟨⟨3, 100000⟩, by decide, by decide⟩)
  · exact (h.1 200000 twoKeyState ("b")).2 ⟨2, 300000⟩ (by decide) (by decide)

end Portfolio
